import Mathlib

/-!
Verification development for the shader-lab repository: a shallow embedding
of the dynamic shader compositor, the recompilation controller, the glyph
morph state machine, the viewport controller, the configuration
load/import repair logic, and the control-panel configuration operations,
together with theorems settling the specification's claims about them.

Sources embedded here:
- `types.ts` (data model),
- the current constants module (`SHADER_HEADER`, `SHADER_MODULES`),
- `components/P5Canvas.tsx` (`generateFragmentShader`, the recompilation
  controller, `handleKeyDown`, the per-frame animation evaluator,
  `mouseWheel`),
- the application root (`DEFAULT_ORDER`, `DEFAULT_CONFIG`, the
  localStorage migration, `handleImportJson`),
- `ControlPanel` (`toggleLayer`, `updateLayerParam`).

Real numbers of the program are modelled as exact rationals `ℚ`; machine
floating point is not modelled, so every numeric theorem below is about
the ideal real-number semantics of the formulas in the code.
-/

namespace ShaderLab

/-- Closed enumeration of the eight effect identifiers, from the `LayerKey`
union type in `types.ts`. -/
inductive LayerKey where
  | holographic
  | liquid_metal
  | vertex_pulse
  | pixel_artefact
  | double_exposure
  | glitch
  | halftone
  | contrast
  deriving DecidableEq, Fintype

/-- The TypeScript string literal naming each `LayerKey` variant; used by the
compositor's emitted comments. -/
def keyName : LayerKey → String
  | .holographic => "holographic"
  | .liquid_metal => "liquid_metal"
  | .vertex_pulse => "vertex_pulse"
  | .pixel_artefact => "pixel_artefact"
  | .double_exposure => "double_exposure"
  | .glitch => "glitch"
  | .halftone => "halftone"
  | .contrast => "contrast"

/-- Per-effect parameters, from the `ShaderLayer` interface in `types.ts`.
The two optional fields are `Option` exactly as they are optional in the
TypeScript type. -/
structure ShaderLayer where
  enabled : Bool
  intensity : ℚ
  timeScale : ℚ
  uvScale : ℚ
  noiseScale : Option ℚ
  noiseSpeed : Option ℚ
  deriving DecidableEq

/-- Root configuration entity, from the `ShaderConfig` interface in
`types.ts`: an order list and a total mapping from keys to layers. -/
structure ShaderConfig where
  order : List LayerKey
  layers : LayerKey → ShaderLayer

/-- `DEFAULT_LAYER` from the application root. -/
def DEFAULT_LAYER : ShaderLayer :=
  { enabled := false, intensity := 1.0, timeScale := 1.4, uvScale := 4.9,
    noiseScale := some 2.0, noiseSpeed := some 1.0 }

/-- `DEFAULT_ORDER` from the application root, in its exact source order. -/
def DEFAULT_ORDER : List LayerKey :=
  [.vertex_pulse, .liquid_metal, .glitch, .pixel_artefact, .halftone,
   .holographic, .double_exposure, .contrast]

/-- `DEFAULT_CONFIG` from the application root. -/
def DEFAULT_CONFIG : ShaderConfig :=
  { order := DEFAULT_ORDER,
    layers := fun k => match k with
      | .holographic => { DEFAULT_LAYER with enabled := true, intensity := 1.0 }
      | .liquid_metal =>
          { DEFAULT_LAYER with
            enabled := false, intensity := 1.0, noiseScale := some 2.5, noiseSpeed := some 1.2 }
      | .vertex_pulse => { DEFAULT_LAYER with enabled := true, intensity := 1.0 }
      | .pixel_artefact => { DEFAULT_LAYER with enabled := false, intensity := 1.0 }
      | .double_exposure => { DEFAULT_LAYER with enabled := true, intensity := 0.47 }
      | .glitch => { DEFAULT_LAYER with enabled := false, intensity := 1.0 }
      | .halftone => { DEFAULT_LAYER with enabled := false, intensity := 1.0 }
      | .contrast => { DEFAULT_LAYER with enabled := false, intensity := 50.0 } }

/-! ## Viewport controller (`mouseWheel` in `P5Canvas.tsx`) -/

/-- The wheel handler from `P5Canvas.tsx`: gated by the UI-interaction flag,
it adds `deltaY * -0.001` to the zoom and clamps the result to
`[0.1, 5.0]` via `Math.max(0.1, Math.min(newZoom, 5.0))`. -/
def mouseWheel (interaction : Bool) (zoom deltaY : ℚ) : ℚ :=
  if interaction then zoom
  else max 0.1 (min (zoom + deltaY * -0.001) 5.0)

/-- One wheel event in a sequence: the interaction flag observed at that
event, paired with its `deltaY`. -/
def wheelStep (zoom : ℚ) (event : Bool × ℚ) : ℚ :=
  mouseWheel event.1 zoom event.2

/-! ## Glyph morph state machine (`handleKeyDown` and the animation block
of `draw` in `P5Canvas.tsx`) -/

/-- The three phases of the glyph morph machine, from the `TextAnimState`
interface. -/
inductive Phase where
  | IDLE
  | OUT
  | IN
  deriving DecidableEq

/-- Glyph morph state, from the `TextAnimState` interface. Times are
milliseconds of the monotonic `p5.millis()` clock. -/
structure TextAnimState where
  displayChar : String
  nextChar : String
  phase : Phase
  startTime : ℚ
  startOpacity : ℚ
  startScale : ℚ
  deriving DecidableEq

/-- The initial morph state installed at startup (`textAnimRef` initial
value in `P5Canvas.tsx`). -/
def initialAnim : TextAnimState :=
  { displayChar := "M", nextChar := "M", phase := .IDLE,
    startTime := 0, startOpacity := 255, startScale := 1.0 }

/-- Keyboard event fields read by the key handler. -/
structure KeyboardEvent where
  key : String
  ctrlKey : Bool
  metaKey : Bool
  altKey : Bool
  shiftKey : Bool
  deriving DecidableEq

/-- The acceptance test of `handleKeyDown`:
`e.key.length === 1 && !e.ctrlKey && !e.metaKey && !e.altKey`.
Note that `shiftKey` is not examined by the code. -/
def acceptedKey (e : KeyboardEvent) : Bool :=
  e.key.length == 1 && !e.ctrlKey && !e.metaKey && !e.altKey

/-- The easing function `easeInOutCubic` from `P5Canvas.tsx`. -/
def easeInOutCubic (x : ℚ) : ℚ :=
  if x < 0.5 then 4 * x * x * x else 1 - (-2 * x + 2) ^ 3 / 2

/-- The keystroke handler `handleKeyDown` from `P5Canvas.tsx`, acting on
the morph state. `now` is the `p5.millis()` sample taken inside the
handler. On an accepted key it always records `nextChar`, then branches on
the phase: IDLE starts an OUT at scale 1; IN computes the currently
displayed eased scale and re-enters OUT from it; OUT changes nothing
further. Rejected events leave the state untouched. -/
def handleKeyDown (e : KeyboardEvent) (now : ℚ) (anim : TextAnimState) :
    TextAnimState :=
  if acceptedKey e then
    let anim := { anim with nextChar := e.key }
    match anim.phase with
    | .IDLE =>
        { anim with
          phase := .OUT, startTime := now, startOpacity := 255, startScale := 1.0 }
    | .IN =>
        let elapsed := now - anim.startTime
        let progress := min 1 (elapsed / 500)
        let easedProgress := easeInOutCubic progress
        let currentSc := anim.startScale + (1.0 - anim.startScale) * easedProgress
        { anim with
          phase := .OUT, startTime := now, startOpacity := 255, startScale := currentSc }
    | .OUT => anim
  else anim

/-- The per-frame animation evaluator from the `draw` function of
`P5Canvas.tsx` (the block computing `currentScale` and the OUT/IN
completion transitions). Returns the updated state together with the
`currentScale` used to draw the glyph this frame. -/
def animationStep (anim : TextAnimState) (nowMs : ℚ) : TextAnimState × ℚ :=
  match anim.phase with
  | .OUT =>
      let elapsed := nowMs - anim.startTime
      let progress := min 1 (elapsed / 500)
      let easedProgress := easeInOutCubic progress
      let currentScale := anim.startScale + (0.0 - anim.startScale) * easedProgress
      if 1 ≤ progress then
        ({ anim with
           displayChar := anim.nextChar, phase := .IN, startTime := nowMs,
           startOpacity := 255, startScale := 0 }, 0)
      else (anim, currentScale)
  | .IN =>
      let elapsed := nowMs - anim.startTime
      let progress := min 1 (elapsed / 500)
      let easedProgress := easeInOutCubic progress
      let currentScale := anim.startScale + (1.0 - anim.startScale) * easedProgress
      if 1 ≤ progress then
        ({ anim with phase := .IDLE }, 1.0)
      else (anim, currentScale)
  | .IDLE => (anim, 1.0)

/-! ## Control panel operations (`toggleLayer`, `updateLayerParam`) -/

/-- The five parameter names accepted by `updateLayerParam`. -/
inductive LayerParam where
  | intensity
  | timeScale
  | uvScale
  | noiseScale
  | noiseSpeed
  deriving DecidableEq, Fintype

/-- Writing one named parameter of a layer, as the computed-property spread
`\x7b ...config.layers[key], [param]: value \x7d` does. -/
def setParam (layer : ShaderLayer) (p : LayerParam) (value : ℚ) : ShaderLayer :=
  match p with
  | .intensity => { layer with intensity := value }
  | .timeScale => { layer with timeScale := value }
  | .uvScale => { layer with uvScale := value }
  | .noiseScale => { layer with noiseScale := some value }
  | .noiseSpeed => { layer with noiseSpeed := some value }

/-- Reading one named parameter of a layer (the required ones wrapped in
`some` so the five reads share a type). -/
def paramOf (layer : ShaderLayer) : LayerParam → Option ℚ
  | .intensity => some layer.intensity
  | .timeScale => some layer.timeScale
  | .uvScale => some layer.uvScale
  | .noiseScale => layer.noiseScale
  | .noiseSpeed => layer.noiseSpeed

/-- `toggleLayer` from `ControlPanel`: a copy of the configuration whose
`layers` map is the old one overwritten at `key` with a copy of that layer
whose `enabled` flag is negated. -/
def toggleLayer (config : ShaderConfig) (key : LayerKey) : ShaderConfig :=
  { config with
    layers := Function.update config.layers key
      { config.layers key with enabled := !(config.layers key).enabled } }

/-- `updateLayerParam` from `ControlPanel`: a copy of the configuration
whose `layers` map is the old one overwritten at `key` with a copy of that
layer in which parameter `p` holds `value`. -/
def updateLayerParam (config : ShaderConfig) (key : LayerKey)
    (p : LayerParam) (value : ℚ) : ShaderConfig :=
  { config with
    layers := Function.update config.layers key
      (setParam (config.layers key) p value) }

/-! ## Module registry and shader compositor (the constants module and
`generateFragmentShader` in `P5Canvas.tsx`) -/

/-- Registry entry: the four shader-source text fragments of one module,
from the `SHADER_MODULES` object of the constants module. -/
structure ShaderModule where
  uniforms : String
  uv : String
  split : String
  color : String
  deriving DecidableEq

/-- The shared shader header (`SHADER_HEADER` in the constants module):
helper functions for pseudo-random hash, 2D value noise and the
fixed-octave fractal sum. Transcribed verbatim from the template literal
(braces and apostrophes written as character escapes). -/
def SHADER_HEADER : String :=
  "\n  precision mediump float;\n  varying vec2 vTexCoord;\n  uniform sampler2D uTexture;\n  uniform float uTime;\n  uniform vec2 uResolution;\n\n  // Random noise helper\n  float random(vec2 st) \x7b\n      return fract(sin(dot(st.xy, vec2(12.9898,78.233))) * 43758.5453123);\n  \x7d\n\n  // 2D Noise based on Morgan McGuire @morgan3d\n  // https://www.shadertoy.com/view/4dS3Wd\n  float noise (in vec2 st) \x7b\n      vec2 i = floor(st);\n      vec2 f = fract(st);\n\n      // Four corners in 2D of a tile\n      float a = random(i);\n      float b = random(i + vec2(1.0, 0.0));\n      float c = random(i + vec2(0.0, 1.0));\n      float d = random(i + vec2(1.0, 1.0));\n\n      vec2 u = f * f * (3.0 - 2.0 * f);\n\n      return mix(a, b, u.x) +\n              (c - a)* u.y * (1.0 - u.x) +\n              (d - b) * u.x * u.y;\n  \x7d\n\n  // Fractional Brownian Motion\n  #define OCTAVES 3\n  float fbm (in vec2 st) \x7b\n      float value = 0.0;\n      float amplitude = 0.5;\n      float frequency = 0.0;\n      \n      for (int i = 0; i < OCTAVES; i++) \x7b\n          value += amplitude * noise(st);\n          st *= 2.0;\n          amplitude *= 0.5;\n      \x7d\n      return value;\n  \x7d\n"

/-- The fixed module registry (`SHADER_MODULES` in the constants module),
one entry per `LayerKey`; every fragment is transcribed verbatim from its
template literal. -/
def SHADER_MODULES : LayerKey → ShaderModule
  | .vertex_pulse =>
    { uniforms := "\n      uniform float uEnablePulse;\n      uniform float uIntensityPulse;\n      uniform float uScalePulse;\n      uniform float uTimeScalePulse;\n    ",
      uv := "\n      if (uEnablePulse > 0.5) \x7b\n        vec2 center = vec2(0.5);\n        vec2 toCenter = uv - center;\n        float dist = length(toCenter);\n        float t = uTime * 4.0 * uTimeScalePulse;\n        float ripple = sin(dist * 30.0 * (uScalePulse * 0.2) - t) * 0.02 * uIntensityPulse;\n        uv += normalize(toCenter) * ripple;\n      \x7d\n    ",
      split := "",
      color := "" }
  | .liquid_metal =>
    { uniforms := "\n      uniform float uEnableLiquid;\n      uniform float uIntensityLiquid;\n      uniform float uScaleLiquid;\n      uniform float uTimeScaleLiquid;\n      uniform float uNoiseScaleLiquid;\n      uniform float uNoiseSpeedLiquid;\n    ",
      uv := "\n      if (uEnableLiquid > 0.5) \x7b\n        float t = uTime * uTimeScaleLiquid * uNoiseSpeedLiquid; // Incorporate Noise Speed into time\n        \n        // Base coordinate for noise lookup\n        vec2 noiseCoord = uv * uScaleLiquid * uNoiseScaleLiquid; \n        \n        // Use FBM for smoother, more natural liquid movement\n        // We offset x and y by different time factors to create swirling\n        float nX = fbm(noiseCoord + vec2(t * 0.5, t * 0.2));\n        float nY = fbm(noiseCoord + vec2(-t * 0.3, t * 0.6) + 10.0); // Offset to decorrelate axes\n        \n        // Remap 0..1 to -1..1\n        vec2 flow = vec2(nX, nY) * 2.0 - 1.0;\n        \n        float amplitude = 0.05 * uIntensityLiquid; \n        \n        uv += flow * amplitude;\n      \x7d\n    ",
      split := "",
      color := "" }
  | .glitch =>
    { uniforms := "\n      uniform float uEnableGlitch;\n      uniform float uIntensityGlitch;\n      uniform float uScaleGlitch;\n      uniform float uTimeScaleGlitch;\n    ",
      uv := "\n      // Digital Glitch (Short, Sporadic, Smearing Strips)\n      if (uEnableGlitch > 0.5) \x7b\n          float t = uTime * uTimeScaleGlitch;\n          \n          // Sync with Split Timing: Only glitch when the \x27noisy color\x27 phase is active\n          // The split logic uses sin(t * 0.7), so we match that here.\n          float glitchActive = smoothstep(0.3, 0.6, sin(t * 0.7));\n          \n          if (glitchActive > 0.01) \x7b\n              float stripCount = 600.0 * uScaleGlitch; \n              float stripId = floor(vTexCoord.y * stripCount);\n              \n              // Sporadic timing step\n              float timeStep = floor(t * 25.0); \n              \n              // Horizontal Segmentation (Shorter strips)\n              // Create random offset per row so segments aren\x27t aligned vertically\n              float rowOffset = random(vec2(stripId, 1.0));\n              // Random segment width per row\n              float colCount = 8.0 + (random(vec2(stripId, 2.0)) * 8.0); \n              float colId = floor((vTexCoord.x + rowOffset) * colCount);\n              \n              // Activation based on Row, Column, and Time\n              float activation = random(vec2(stripId + colId, timeStep));\n              \n              // Threshold based on intensity and the global \x27glitchActive\x27 wave\n              float threshold = 1.0 - (0.15 * uIntensityGlitch * glitchActive); \n              \n              if (activation > threshold) \x7b\n                   // Drift\n                   float drift = sin(t * 10.0 + stripId) * 0.1;\n                   // Smear\n                   uv.x = (uv.x - 0.5) * 0.005 + 0.5 + drift;\n              \x7d\n          \x7d\n      \x7d\n    ",
      split := "\n      if (uEnableGlitch > 0.5) \x7b\n          float t = uTime * uTimeScaleGlitch;\n          float interval = smoothstep(0.4, 0.6, sin(t * 0.7)); \n          float drift = (sin(t * 2.5) + sin(t * 1.5) * 0.5) * 0.02;\n          \n          // Jitter/Noise added to the split for a harsher look\n          float jitter = (random(vec2(uv.y, t)) - 0.5) * 0.2;\n          \n          splitAmount += (drift + jitter) * interval * uIntensityGlitch;\n      \x7d\n    ",
      color := "\n      if (uEnableGlitch > 0.5) \x7b\n          float t = uTime * uTimeScaleGlitch;\n          float glitchActive = smoothstep(0.3, 0.6, sin(t * 0.7));\n          \n          if (glitchActive > 0.01) \x7b\n              float stripCount = 600.0 * uScaleGlitch; \n              float stripId = floor(vTexCoord.y * stripCount);\n              float timeStep = floor(t * 25.0); \n              \n              float rowOffset = random(vec2(stripId, 1.0));\n              float colCount = 8.0 + (random(vec2(stripId, 2.0)) * 8.0); \n              float rawCol = (vTexCoord.x + rowOffset) * colCount;\n              float colId = floor(rawCol);\n              \n              float activation = random(vec2(stripId + colId, timeStep));\n              float threshold = 1.0 - (0.15 * uIntensityGlitch * glitchActive); \n              \n              // 1. Strip Fade (Edges of the short segment transparent)\n              if (activation > threshold) \x7b\n                 float segmentPos = fract(rawCol);\n                 // Fade out at start and end of the segment\n                 float fade = smoothstep(0.0, 0.3, segmentPos) * (1.0 - smoothstep(0.7, 1.0, segmentPos));\n                 color.rgb *= fade;\n              \x7d\n          \x7d\n          \n          // 2. Blur & Noise (Match split activity)\n          if (abs(splitAmount) > 0.001) \x7b\n             float noise = (random(uv * t * 10.0) - 0.5) * 0.3 * uIntensityGlitch;\n             color.rgb += noise;\n             vec2 blur = vec2(0.02 * uIntensityGlitch, 0.0);\n             vec3 blurred = (color.rgb + texture2D(uTexture, uv + blur).rgb + texture2D(uTexture, uv - blur).rgb) / 3.0;\n             color.rgb = mix(color.rgb, blurred, 0.8);\n          \x7d\n      \x7d\n    " }
  | .pixel_artefact =>
    { uniforms := "\n      uniform float uEnablePixel;\n      uniform float uIntensityPixel;\n      uniform float uScalePixel;\n      uniform float uTimeScalePixel;\n    ",
      uv := "\n      if (uEnablePixel > 0.5) \x7b\n        float grid = 150.0 * uScalePixel / max(0.01, uIntensityPixel); \n        uv = floor(uv * grid) / grid;\n      \x7d\n    ",
      split := "",
      color := "" }
  | .holographic =>
    { uniforms := "\n      uniform float uEnableHolo;\n      uniform float uIntensityHolo;\n      uniform float uScaleHolo;\n      uniform float uTimeScaleHolo;\n    ",
      uv := "",
      split := "\n      if (uEnableHolo > 0.5) \x7b\n          float t = uTime * 3.0 * uTimeScaleHolo;\n          splitAmount += 0.005 * uIntensityHolo * sin(t);\n      \x7d\n    ",
      color := "\n      if (uEnableHolo > 0.5) \x7b\n          float t = uTime * -5.0 * uTimeScaleHolo;\n          float scan = sin(uv.y * 200.0 * (uScaleHolo * 0.2) + t) * 0.5 + 0.5;\n          color.rgb *= 1.0 - (0.2 * uIntensityHolo * scan);\n          color.rgb = mix(color.rgb, vec3(0.0, 1.0, 0.9) * dot(color.rgb, vec3(0.33)), 0.2 * uIntensityHolo);\n      \x7d\n    " }
  | .double_exposure =>
    { uniforms := "\n      uniform float uEnableDouble;\n      uniform float uIntensityDouble;\n      uniform float uScaleDouble;\n      uniform float uTimeScaleDouble;\n    ",
      uv := "",
      split := "",
      color := "\n      if (uEnableDouble > 0.5) \x7b\n        vec2 center = vec2(0.5);\n        float zoomStrength = 0.1 * uIntensityDouble * (uScaleDouble * 0.2); \n        vec2 zoomUV = (uv - center) * (1.0 - zoomStrength) + center;\n        vec4 zoomColor = texture2D(uTexture, zoomUV);\n        color.rgb += zoomColor.rgb * 0.6 * uIntensityDouble;\n      \x7d\n    " }
  | .halftone =>
    { uniforms := "\n      uniform float uEnableHalftone;\n      uniform float uIntensityHalftone;\n      uniform float uScaleHalftone;\n      uniform float uTimeScaleHalftone;\n    ",
      uv := "",
      split := "",
      color := "\n      if (uEnableHalftone > 0.5) \x7b\n          // Standard screen-space halftone pattern\n          float aspect = uResolution.x / uResolution.y;\n          float scale = 60.0 * uScaleHalftone;\n          \n          // Rotate grid 45 degrees\n          float angle = 0.785398;\n          mat2 rot = mat2(cos(angle), -sin(angle), sin(angle), cos(angle));\n          \n          vec2 st = (vTexCoord - 0.5) * vec2(aspect, 1.0);\n          st = rot * st;\n          st += 0.5;\n          \n          vec2 gridUV = fract(st * scale) - 0.5; \n          float dist = length(gridUV) * 2.0; \n          \n          // Calculate luminance of current pixel\n          float luma = dot(color.rgb, vec3(0.299, 0.587, 0.114));\n          \n          // Determine dot size based on luma\n          // Lighter = bigger dots\n          float radius = sqrt(luma) * uIntensityHalftone * 1.2; \n          \n          float feather = 0.05 * uScaleHalftone; \n          \n          // Inverse mask: 1.0 inside dot, 0.0 outside\n          float mask = 1.0 - smoothstep(radius - feather, radius + feather, dist);\n          \n          color.rgb *= mask;\n      \x7d\n    " }
  | .contrast =>
    { uniforms := "\n      uniform float uEnableContrast;\n      uniform float uIntensityContrast;\n      uniform float uScaleContrast; // Not used but needed for uniform loop consistency if generic\n      uniform float uTimeScaleContrast; // Not used\n    ",
      uv := "",
      split := "",
      color := "\n      if (uEnableContrast > 0.5) \x7b\n          // Grayscale conversion\n          float luma = dot(color.rgb, vec3(0.299, 0.587, 0.114));\n          \n          // Calculate contrast factor from 0-100 range\n          // 0 -> 0.0 (Flat Grey)\n          // 50 -> 1.0 (Normal Grayscale)\n          // 100 -> 5.0 (High Contrast B&W)\n          float cFactor = 1.0;\n          if (uIntensityContrast < 50.0) \x7b\n              cFactor = uIntensityContrast / 50.0;\n          \x7d else \x7b\n              cFactor = 1.0 + ((uIntensityContrast - 50.0) / 50.0) * 4.0; \n          \x7d\n          \n          // Apply contrast\n          vec3 final = vec3((luma - 0.5) * cFactor + 0.5);\n          color.rgb = final;\n      \x7d\n    " }

/-- The property-insertion order of the `SHADER_MODULES` object literal.
`Object.values(SHADER_MODULES)` iterates its string-keyed properties in
this (insertion) order, so the uniforms loop of `generateFragmentShader`
emits the eight `uniforms` fragments in this sequence. -/
def SHADER_MODULES_KEYS : List LayerKey :=
  [.vertex_pulse, .liquid_metal, .glitch, .pixel_artefact, .holographic,
   .double_exposure, .halftone, .contrast]

/-- The text opening `main()` in `generateFragmentShader` (the template
literal appended right after the uniforms loop). -/
def MAIN_OPEN : String :=
  "\n      void main() \x7b\n        vec2 uv = vTexCoord;\n        vec4 color;\n        float splitAmount = 0.0;\n    "

/-- The fixed sampling block of `generateFragmentShader`: three offset
samples into r, g, b when `abs(splitAmount) > 0.0001`, one plain sample
otherwise. -/
def SAMPLING_BLOCK : String :=
  "\n        if (abs(splitAmount) > 0.0001) \x7b\n             float r = texture2D(uTexture, uv + vec2(splitAmount, 0.0)).r;\n             float g = texture2D(uTexture, uv).g;\n             float b = texture2D(uTexture, uv - vec2(splitAmount, 0.0)).b;\n             color = vec4(r, g, b, 1.0);\n        \x7d else \x7b\n             color = texture2D(uTexture, uv);\n        \x7d\n    "

/-- The text closing `main()` in `generateFragmentShader`. -/
def MAIN_CLOSE : String :=
  "\n        gl_FragColor = color;\n      \x7d\n    "

/-- The per-key piece appended by the UV loop of `generateFragmentShader`:
a marker comment followed by the module's `uv` fragment (the loop guard
`SHADER_MODULES[key]` is always truthy since the registry is total). -/
def uvPiece (key : LayerKey) : String :=
  "\n // " ++ keyName key ++ " UV \n" ++ (SHADER_MODULES key).uv

/-- The per-key piece appended by the split loop of
`generateFragmentShader`. The loop guard also tests the `split` fragment
for truthiness, so a key with an empty `split` fragment contributes
nothing (not even the marker comment). -/
def splitPiece (key : LayerKey) : String :=
  if (SHADER_MODULES key).split = "" then ""
  else "\n // " ++ keyName key ++ " Split \n" ++ (SHADER_MODULES key).split

/-- The per-key piece appended by the color loop of
`generateFragmentShader`: a marker comment followed by the module's
`color` fragment. -/
def colorPiece (key : LayerKey) : String :=
  "\n // " ++ keyName key ++ " Color \n" ++ (SHADER_MODULES key).color

/-- The eight `uniforms` fragments as emitted by the
`Object.values(SHADER_MODULES).forEach` loop. -/
def uniformsPieces : List String :=
  SHADER_MODULES_KEYS.map fun m => (SHADER_MODULES m).uniforms

/-- The successive pieces appended to `source` by `generateFragmentShader`
for a given order list, in their exact append sequence: the header, the
eight uniforms fragments, the `main()` opening, the UV loop, the split
loop, the fixed sampling block, the color loop, and the closing text. -/
def fragmentPieces (order : List LayerKey) : List String :=
  [SHADER_HEADER] ++ uniformsPieces ++ [MAIN_OPEN] ++ order.map uvPiece ++
    order.map splitPiece ++ [SAMPLING_BLOCK] ++ order.map colorPiece ++
    [MAIN_CLOSE]

/-- Sequential `+=` concatenation of a list of pieces into an initially
empty accumulator. -/
def concatPieces (pieces : List String) : String :=
  pieces.foldl (fun acc piece => acc ++ piece) ""

/-- `generateFragmentShader` from `P5Canvas.tsx`: `source` starts as the
header and each subsequent piece is appended with `+=`; the function reads
nothing of the configuration but `config.order`. -/
def generateFragmentShader (config : ShaderConfig) : String :=
  concatPieces (fragmentPieces config.order)

/-! ## Configuration load repair and import (application root) -/

/-- The order-repair loop of the localStorage migration in the application
root: for each key of `DEFAULT_ORDER` in turn, if the key is not yet in
the order list it is appended (`parsed.order.push(key)`). Duplicates
already present are never removed. -/
def repairOrder (ord : List LayerKey) : List LayerKey :=
  DEFAULT_ORDER.foldl (fun acc key => if key ∈ acc then acc else acc ++ [key]) ord

/-- A parsed JSON document as `handleImportJson` sees it: either field may
be absent. -/
structure ParsedDoc where
  order : Option (List LayerKey)
  layers : Option (LayerKey → ShaderLayer)

/-- `handleImportJson` from the application root: if both `layers` and
`order` are present the parsed document replaces the configuration as-is
(no repair); otherwise the prior configuration is kept. -/
def handleImportJson (current : ShaderConfig) (parsed : ParsedDoc) :
    ShaderConfig :=
  match parsed.layers, parsed.order with
  | some ls, some ord => { order := ord, layers := ls }
  | _, _ => current

/-! ## Recompilation controller (`shaderUpdatePending`, the recompile
block of `draw`, and the order-change effect in `P5Canvas.tsx`) -/

/-- A compiled GPU program as the controller sees it: the source text it
was built from plus whether GPU compilation succeeded. The validity bit is
external information (the GPU compiler's verdict); the controller code
never inspects it. -/
structure Program where
  src : String
  valid : Bool
  deriving DecidableEq

/-- The controller's mutable state: the active shader reference
(`shaderRef`) and the pending-recompile flag (`shaderUpdatePending`). -/
structure RenderController where
  shaderRef : Option Program
  shaderUpdatePending : Bool
  deriving DecidableEq

/-- The effect hooked on changes of `config.order` in `P5Canvas.tsx`: if a
shader already exists the pending flag is raised, otherwise nothing
happens. -/
def onOrderChange (s : RenderController) : RenderController :=
  if s.shaderRef.isSome then { s with shaderUpdatePending := true } else s

/-- The recompile block at the top of `draw`: when the pending flag is
set, the source is regenerated, `createShader` (the external GPU compile,
p5's `createShader`) is called on it, its result unconditionally replaces
the active shader, and the flag is cleared. The returned number counts the
`createShader` calls performed this frame; the sampling pass later in the
same frame reads the `shaderRef` of the state returned here. -/
def drawRecompile (createShader : String → Program) (config : ShaderConfig)
    (s : RenderController) : RenderController × Nat :=
  if s.shaderUpdatePending then
    ({ shaderRef := some (createShader (generateFragmentShader config)),
       shaderUpdatePending := false }, 1)
  else (s, 0)

/-! ## Semantics of the fixed sampling block -/

/-- A rational-valued rgba sample. -/
structure RGBA where
  r : ℚ
  g : ℚ
  b : ℚ
  a : ℚ
  deriving DecidableEq

/-- Semantics of the fixed sampling block `SAMPLING_BLOCK`, transcribed
from its GLSL text: when `abs(splitAmount) > 0.0001` the texture is
sampled at x-offsets `+splitAmount`, `0`, `-splitAmount`, taking the r,
g, b channels respectively with alpha 1; otherwise it is sampled once. -/
def sampleBlock (tex : ℚ × ℚ → RGBA) (uv : ℚ × ℚ) (splitAmount : ℚ) :
    RGBA :=
  if 0.0001 < |splitAmount| then
    { r := (tex (uv.1 + splitAmount, uv.2)).r,
      g := (tex uv).g,
      b := (tex (uv.1 - splitAmount, uv.2)).b,
      a := 1 }
  else tex uv

/-! ## Concatenation helpers -/

set_option maxRecDepth 20000

theorem foldl_append_shift (xs : List String) :
    ∀ init : String,
      xs.foldl (fun acc piece => acc ++ piece) init =
        init ++ xs.foldl (fun acc piece => acc ++ piece) "" := by
  induction xs with
  | nil => intro init; simp [String.append_empty]
  | cons x xs ih =>
      intro init
      simp only [List.foldl_cons]
      rw [ih (init ++ x), ih ("" ++ x), String.empty_append,
        String.append_assoc]

theorem concatPieces_nil : concatPieces [] = "" := rfl

theorem concatPieces_cons (x : String) (xs : List String) :
    concatPieces (x :: xs) = x ++ concatPieces xs := by
  simp only [concatPieces, List.foldl_cons]
  rw [foldl_append_shift, String.empty_append]

theorem concatPieces_singleton (x : String) : concatPieces [x] = x := by
  rw [concatPieces_cons, concatPieces_nil, String.append_empty]

theorem concatPieces_append (xs ys : List String) :
    concatPieces (xs ++ ys) = concatPieces xs ++ concatPieces ys := by
  induction xs with
  | nil => rw [List.nil_append, concatPieces_nil, String.empty_append]
  | cons x xs ih =>
      rw [List.cons_append, concatPieces_cons, concatPieces_cons, ih,
        String.append_assoc]

/-! ## Disequalities between emitted pieces, decided by computation -/

theorem uniforms_ne_header :
    ∀ k : LayerKey, (SHADER_MODULES k).uniforms ≠ SHADER_HEADER := by decide

theorem uniforms_ne_fixed :
    ∀ k : LayerKey,
      (SHADER_MODULES k).uniforms ≠ MAIN_OPEN ∧
      (SHADER_MODULES k).uniforms ≠ SAMPLING_BLOCK ∧
      (SHADER_MODULES k).uniforms ≠ MAIN_CLOSE := by decide

theorem uniforms_ne_uvPiece :
    ∀ k k' : LayerKey, (SHADER_MODULES k).uniforms ≠ uvPiece k' := by decide

theorem uniforms_ne_splitPiece :
    ∀ k k' : LayerKey, (SHADER_MODULES k).uniforms ≠ splitPiece k' := by
  decide

theorem uniforms_ne_colorPiece :
    ∀ k k' : LayerKey, (SHADER_MODULES k).uniforms ≠ colorPiece k' := by
  decide

theorem uniforms_count_one :
    ∀ k : LayerKey,
      uniformsPieces.count ((SHADER_MODULES k).uniforms) = 1 := by decide

/-- Claim C1: for every order list, the piece sequence concatenated into
the composed fragment-shader source contains each of the eight modules'
`uniforms` fragments exactly once — independent of the order list's
contents and of every layer's `enabled` flag (`generateFragmentShader`
reads nothing of the configuration but `order`, and the uniforms loop
iterates over the whole registry). -/
theorem claim_C1 (config : ShaderConfig) (k : LayerKey) :
    (fragmentPieces config.order).count ((SHADER_MODULES k).uniforms) = 1 := by
  have hsing : ∀ x : String, (SHADER_MODULES k).uniforms ≠ x →
      ([x] : List String).count ((SHADER_MODULES k).uniforms) = 0 := by
    intro x hx
    rw [List.count_eq_zero, List.mem_singleton]
    exact hx
  have hmap : ∀ f : LayerKey → String,
      (∀ k', (SHADER_MODULES k).uniforms ≠ f k') →
      ∀ l : List LayerKey,
        (l.map f).count ((SHADER_MODULES k).uniforms) = 0 := by
    intro f hf l
    rw [List.count_eq_zero]
    intro hm
    obtain ⟨k', _, hk'⟩ := List.mem_map.mp hm
    exact hf k' hk'.symm
  simp only [fragmentPieces, List.count_append]
  rw [hsing _ (uniforms_ne_header k), uniforms_count_one k,
    hsing _ (uniforms_ne_fixed k).1,
    hmap _ (uniforms_ne_uvPiece k) _,
    hmap _ (uniforms_ne_splitPiece k) _,
    hsing _ (uniforms_ne_fixed k).2.1,
    hmap _ (uniforms_ne_colorPiece k) _,
    hsing _ (uniforms_ne_fixed k).2.2]

/-- Claim C2: the composed source is, in this sequence, the header, the
uniform declarations, the `main()` opening, the uv pieces in the order of
the list, the split pieces in the same order, the one fixed sampling
block, and the color pieces in the order of the list, before the closing
text; for orders `[A, B]` versus `[B, A]` the uv pieces of `A` and `B`
appear in those respective sequences; and the fixed sampling block samples
the texture three times at offsets `(+split, 0)`, `(0, 0)`, `(-split, 0)`
into the r, g, b channels when `|splitAmount|` exceeds `1e-4` and samples
once otherwise. -/
theorem claim_C2 :
    (∀ config : ShaderConfig,
      generateFragmentShader config =
        SHADER_HEADER ++ concatPieces uniformsPieces ++ MAIN_OPEN ++
          concatPieces (config.order.map uvPiece) ++
          concatPieces (config.order.map splitPiece) ++ SAMPLING_BLOCK ++
          concatPieces (config.order.map colorPiece) ++ MAIN_CLOSE) ∧
    (∀ A B : LayerKey,
      concatPieces ([A, B].map uvPiece) = uvPiece A ++ uvPiece B ∧
      concatPieces ([B, A].map uvPiece) = uvPiece B ++ uvPiece A) ∧
    (∀ (tex : ℚ × ℚ → RGBA) (uv : ℚ × ℚ) (s : ℚ),
      (0.0001 < |s| →
        sampleBlock tex uv s =
          { r := (tex (uv.1 + s, uv.2)).r, g := (tex uv).g,
            b := (tex (uv.1 - s, uv.2)).b, a := 1 }) ∧
      (¬ 0.0001 < |s| → sampleBlock tex uv s = tex uv)) := by
  refine ⟨?_, ?_, ?_⟩
  · intro config
    simp only [generateFragmentShader, fragmentPieces, concatPieces_append,
      concatPieces_singleton]
  · intro A B
    constructor <;>
      simp only [List.map_cons, List.map_nil, concatPieces_cons,
        concatPieces_nil, String.append_empty]
  · intro tex uv s
    constructor
    · intro h
      simp only [sampleBlock, if_pos h]
    · intro h
      simp only [sampleBlock, if_neg h]

/-- Witness for claim C2: both branches of the sampling block evaluated on
a concrete texture. -/
theorem claim_C2_witness :
    (sampleBlock (fun p => { r := p.1, g := p.2, b := p.1 - 1, a := 1 })
        (0, 0) 1 =
      { r := (1 : ℚ), g := 0, b := -2, a := 1 }) ∧
    (sampleBlock (fun p => { r := p.1, g := p.2, b := p.1 - 1, a := 1 })
        (0, 0) 0 =
      { r := (0 : ℚ), g := 0, b := -1, a := 1 }) := by
  constructor
  · have h :=
      (claim_C2.2.2 (fun p => { r := p.1, g := p.2, b := p.1 - 1, a := 1 })
        (0, 0) 1).1 (by norm_num)
    rw [h]
    norm_num
  · have h :=
      (claim_C2.2.2 (fun p => { r := p.1, g := p.2, b := p.1 - 1, a := 1 })
        (0, 0) 0).2 (by norm_num)
    rw [h]
    norm_num

/-- Claim C3: configurations with equal order lists compose to identical
source text — in particular `toggleLayer` and `updateLayerParam` never
change the composed source (they keep `order` untouched, so the
order-change effect does not fire and no rebuild is triggered) — and an
order-change event from a stable state makes exactly one rebuild happen at
the start of the next frame, before that frame's sampling pass reads the
active shader, with the following frame rebuilding nothing. -/
theorem claim_C3 :
    (∀ c1 c2 : ShaderConfig, c1.order = c2.order →
      generateFragmentShader c1 = generateFragmentShader c2) ∧
    (∀ (config : ShaderConfig) (k : LayerKey),
      (toggleLayer config k).order = config.order ∧
      generateFragmentShader (toggleLayer config k) =
        generateFragmentShader config) ∧
    (∀ (config : ShaderConfig) (k : LayerKey) (p : LayerParam) (v : ℚ),
      (updateLayerParam config k p v).order = config.order ∧
      generateFragmentShader (updateLayerParam config k p v) =
        generateFragmentShader config) ∧
    (∀ (createShader : String → Program) (config : ShaderConfig)
        (s : RenderController),
      s.shaderUpdatePending = false →
      drawRecompile createShader config s = (s, 0)) ∧
    (∀ (createShader : String → Program) (config : ShaderConfig)
        (s : RenderController),
      s.shaderUpdatePending = false → s.shaderRef.isSome = true →
      (drawRecompile createShader config (onOrderChange s)).2 = 1 ∧
      (drawRecompile createShader config (onOrderChange s)).1.shaderRef =
        some (createShader (generateFragmentShader config)) ∧
      (drawRecompile createShader config
        (drawRecompile createShader config (onOrderChange s)).1).2 = 0) := by
  have hsame : ∀ c1 c2 : ShaderConfig, c1.order = c2.order →
      generateFragmentShader c1 = generateFragmentShader c2 := by
    intro c1 c2 h
    simp only [generateFragmentShader, h]
  refine ⟨hsame, ?_, ?_, ?_, ?_⟩
  · intro config k
    exact ⟨rfl, hsame _ _ rfl⟩
  · intro config k p v
    exact ⟨rfl, hsame _ _ rfl⟩
  · intro createShader config s h
    simp [drawRecompile, h]
  · intro createShader config s hp hs
    have h1 : onOrderChange s =
        { s with shaderUpdatePending := true } := by
      simp [onOrderChange, hs]
    simp [h1, drawRecompile]

/-- Witness for claim C3: the rebuild scenario run from a concrete stable
state with a concrete compiler. -/
theorem claim_C3_witness :
    (drawRecompile (fun src => { src := src, valid := true }) DEFAULT_CONFIG
        (onOrderChange
          { shaderRef := some { src := "prev", valid := true },
            shaderUpdatePending := false })).2 = 1 ∧
    (drawRecompile (fun src => { src := src, valid := true }) DEFAULT_CONFIG
        (onOrderChange
          { shaderRef := some { src := "prev", valid := true },
            shaderUpdatePending := false })).1.shaderRef =
      some ((fun src => { src := src, valid := true })
        (generateFragmentShader DEFAULT_CONFIG)) ∧
    (drawRecompile (fun src => { src := src, valid := true }) DEFAULT_CONFIG
        (drawRecompile (fun src => { src := src, valid := true })
          DEFAULT_CONFIG
          (onOrderChange
            { shaderRef := some { src := "prev", valid := true },
              shaderUpdatePending := false })).1).2 = 0 :=
  claim_C3.2.2.2.2 (fun src => { src := src, valid := true }) DEFAULT_CONFIG
    { shaderRef := some { src := "prev", valid := true },
      shaderUpdatePending := false } rfl rfl

/-- The previously valid compiled program of the claim C4 scenario. -/
def prevProgram : Program := { src := "previous valid program", valid := true }

/-- A GPU compile that fails: the resulting program is invalid. -/
def failingCreateShader : String → Program :=
  fun src => { src := src, valid := false }

/-- The controller state of the claim C4 scenario: a valid program is
active and a recompile is pending. -/
def pendingState : RenderController :=
  { shaderRef := some prevProgram, shaderUpdatePending := true }

/-- Counterexample to claim C4: with a previously valid program active and
a failing GPU compile, the recompile block of `draw` does NOT retain the
previous program — the active shader after the frame is the new invalid
program, not `prevProgram`. (The code assigns
`shaderRef.current = p5.createShader(...)` unconditionally, with no
error handling around it.) -/
theorem claim_C4_counterexample :
    (drawRecompile failingCreateShader DEFAULT_CONFIG
        pendingState).1.shaderRef.map Program.valid = some false ∧
    (drawRecompile failingCreateShader DEFAULT_CONFIG
        pendingState).1.shaderRef ≠ some prevProgram := by
  have h1 : (drawRecompile failingCreateShader DEFAULT_CONFIG
      pendingState).1.shaderRef.map Program.valid = some false := rfl
  refine ⟨h1, fun h => ?_⟩
  rw [h] at h1
  simp [prevProgram] at h1

/-- Claim C4 as amended: whatever the external compile returns — valid or
not — a pending recompile unconditionally replaces the active shader
reference with the newly created program and clears the pending flag; the
previous program is never retained, and no error handling exists in the
recompile step (error logging and survival of the render loop are
delegated to the external p5 library). -/
theorem claim_C4 (createShader : String → Program) (config : ShaderConfig)
    (s : RenderController) (h : s.shaderUpdatePending = true) :
    (drawRecompile createShader config s).1.shaderRef =
      some (createShader (generateFragmentShader config)) ∧
    (drawRecompile createShader config s).1.shaderUpdatePending = false := by
  simp [drawRecompile, h]

/-- Witness for claim C4: the failing-compile scenario evaluated
concretely. -/
theorem claim_C4_witness :
    (drawRecompile failingCreateShader DEFAULT_CONFIG
        pendingState).1.shaderRef =
      some (failingCreateShader (generateFragmentShader DEFAULT_CONFIG)) ∧
    (drawRecompile failingCreateShader DEFAULT_CONFIG
        pendingState).1.shaderUpdatePending = false :=
  claim_C4 failingCreateShader DEFAULT_CONFIG pendingState rfl

/-- Claim C5: a keystroke accepted while the morph machine is in phase IN
re-enters OUT with `startTime = now` and `startScale` equal to
`startScale + (1 - startScale) * easeInOutCubic (min 1 (elapsed / 500))`
— which is exactly the scale the per-frame evaluator of `draw` would
display at that instant, so the subsequent OUT animation starts from the
currently displayed scale. -/
theorem claim_C5 (e : KeyboardEvent) (now : ℚ) (anim : TextAnimState)
    (hacc : acceptedKey e = true) (hph : anim.phase = Phase.IN) :
    (handleKeyDown e now anim).phase = Phase.OUT ∧
    (handleKeyDown e now anim).startTime = now ∧
    (handleKeyDown e now anim).startScale =
      anim.startScale + (1 - anim.startScale) *
        easeInOutCubic (min 1 ((now - anim.startTime) / 500)) ∧
    (handleKeyDown e now anim).startScale = (animationStep anim now).2 := by
  obtain ⟨d, n, ph, st, so, ss⟩ := anim
  simp only at hph
  subst hph
  refine ⟨?_, ?_, ?_, ?_⟩
  · simp [handleKeyDown, hacc]
  · simp [handleKeyDown, hacc]
  · simp only [handleKeyDown, hacc, if_true]
    norm_num
  · simp only [handleKeyDown, hacc, if_true, animationStep]
    by_cases hp : (1 : ℚ) ≤ min 1 ((now - st) / 500)
    · have hmin : min 1 ((now - st) / 500) = 1 :=
        le_antisymm (min_le_left _ _) hp
      rw [if_pos hp]
      simp only [hmin]
      have he : easeInOutCubic 1 = 1 := by norm_num [easeInOutCubic]
      rw [he]
      ring_nf
    · rw [if_neg hp]

/-- Witness for claim C5: a keystroke at t = 250 ms into an IN phase that
started at t = 0 from scale 0 re-enters OUT from scale
`easeInOutCubic (1/2) = 1/2`. -/
theorem claim_C5_witness :
    (handleKeyDown
        { key := "a", ctrlKey := false, metaKey := false, altKey := false,
          shiftKey := false } 250
        { displayChar := "M", nextChar := "M", phase := .IN, startTime := 0,
          startOpacity := 255, startScale := 0 }).phase = Phase.OUT ∧
    (handleKeyDown
        { key := "a", ctrlKey := false, metaKey := false, altKey := false,
          shiftKey := false } 250
        { displayChar := "M", nextChar := "M", phase := .IN, startTime := 0,
          startOpacity := 255, startScale := 0 }).startTime = 250 ∧
    (handleKeyDown
        { key := "a", ctrlKey := false, metaKey := false, altKey := false,
          shiftKey := false } 250
        { displayChar := "M", nextChar := "M", phase := .IN, startTime := 0,
          startOpacity := 255, startScale := 0 }).startScale =
      0 + (1 - 0) * easeInOutCubic (min 1 ((250 - 0) / 500)) ∧
    (handleKeyDown
        { key := "a", ctrlKey := false, metaKey := false, altKey := false,
          shiftKey := false } 250
        { displayChar := "M", nextChar := "M", phase := .IN, startTime := 0,
          startOpacity := 255, startScale := 0 }).startScale =
      (animationStep
        { displayChar := "M", nextChar := "M", phase := .IN, startTime := 0,
          startOpacity := 255, startScale := 0 } 250).2 :=
  claim_C5
    { key := "a", ctrlKey := false, metaKey := false, altKey := false,
      shiftKey := false } 250
    { displayChar := "M", nextChar := "M", phase := .IN, startTime := 0,
      startOpacity := 255, startScale := 0 } (by decide) rfl

/-- Counterexample to claim C6: a stored order already containing
`holographic` twice survives the load-time repair with the duplicate
intact (the repair only appends missing keys, it removes nothing), so the
repaired order is not a permutation of the eight keys. -/
theorem claim_C6_counterexample :
    (repairOrder [LayerKey.holographic, LayerKey.holographic]).count
        LayerKey.holographic = 2 ∧
    ¬ ∀ k : LayerKey,
        (repairOrder [LayerKey.holographic, LayerKey.holographic]).count
          k = 1 := by
  decide

/-- Claim C6 as amended: the load-time repair guarantees only that no key
is omitted — after it every `LayerKey` occurs in the order at least once —
while duplicates already present are kept; and the import path applies no
repair at all: an accepted document's order is installed verbatim. -/
theorem claim_C6 :
    (∀ (ord : List LayerKey) (k : LayerKey), k ∈ repairOrder ord) ∧
    (∀ (current : ShaderConfig) (ord : List LayerKey)
        (ls : LayerKey → ShaderLayer),
      (handleImportJson current
        { order := some ord, layers := some ls }).order = ord) := by
  constructor
  · intro ord k
    have hmono : ∀ (l acc : List LayerKey), k ∈ acc →
        k ∈ l.foldl
          (fun acc key => if key ∈ acc then acc else acc ++ [key]) acc := by
      intro l
      induction l with
      | nil => intro acc h; exact h
      | cons x xs ih =>
          intro acc h
          simp only [List.foldl_cons]
          by_cases hx : x ∈ acc
          · rw [if_pos hx]; exact ih acc h
          · rw [if_neg hx]; exact ih _ (List.mem_append_left _ h)
    have hin : ∀ (l acc : List LayerKey), k ∈ l →
        k ∈ l.foldl
          (fun acc key => if key ∈ acc then acc else acc ++ [key]) acc := by
      intro l
      induction l with
      | nil => intro acc h; exact absurd h (List.not_mem_nil k)
      | cons x xs ih =>
          intro acc h
          simp only [List.foldl_cons]
          rcases List.mem_cons.mp h with he | hm
          · subst he
            by_cases hx : k ∈ acc
            · rw [if_pos hx]; exact hmono xs acc hx
            · rw [if_neg hx]
              exact hmono xs _
                (List.mem_append_right _ (List.mem_singleton.mpr rfl))
          · by_cases hx : x ∈ acc
            · rw [if_pos hx]; exact ih acc hm
            · rw [if_neg hx]; exact ih _ hm
    have hall : ∀ k' : LayerKey, k' ∈ DEFAULT_ORDER := by decide
    exact hin DEFAULT_ORDER ord (hall k)
  · intro current ord ls
    rfl

/-- Modelled from the spec: the eight-key enumeration order stated in §3
(holographic, liquid-metal, vertex-pulse, pixel-artefact, double-exposure,
glitch, halftone, contrast), for comparison with the code's
`DEFAULT_ORDER`. -/
def SPEC_SECTION3_ORDER : List LayerKey :=
  [.holographic, .liquid_metal, .vertex_pulse, .pixel_artefact,
   .double_exposure, .glitch, .halftone, .contrast]

/-- Counterexample to claim C7: the code's default order list is not the
§3 enumeration order. -/
theorem claim_C7_counterexample : DEFAULT_ORDER ≠ SPEC_SECTION3_ORDER := by
  decide

/-- Claim C7 as amended: the default configuration's order list is
`[vertex_pulse, liquid_metal, glitch, pixel_artefact, halftone,
holographic, double_exposure, contrast]` — a permutation of the eight
keys (each occurs exactly once), but not the §3 enumeration order. -/
theorem claim_C7 :
    DEFAULT_ORDER =
      [LayerKey.vertex_pulse, LayerKey.liquid_metal, LayerKey.glitch,
       LayerKey.pixel_artefact, LayerKey.halftone, LayerKey.holographic,
       LayerKey.double_exposure, LayerKey.contrast] ∧
    (∀ k : LayerKey, DEFAULT_ORDER.count k = 1) := by
  decide

/-- Bounds of a single wheel step, whatever the interaction flag: the zoom
stays in `[0.1, 5.0]` if it was there before, and lands there outright
when the event is processed (flag false). -/
theorem wheelStep_bounds (zoom : ℚ) (event : Bool × ℚ)
    (h1 : 0.1 ≤ zoom) (h2 : zoom ≤ 5.0) :
    0.1 ≤ wheelStep zoom event ∧ wheelStep zoom event ≤ 5.0 := by
  rcases event with ⟨flag, deltaY⟩
  cases flag
  · constructor
    · exact le_max_left _ _
    · exact max_le (by norm_num) (min_le_right _ _)
  · exact ⟨h1, h2⟩

/-- Claim C8: a wheel event processed with the interaction flag false
turns zoom `z` into `max 0.1 (min (z + -deltaY * 0.001) 5.0)` — the
clamped increment, never overshooting for any single delta — and any
sequence of wheel events starting from a zoom in `[0.1, 5.0]` leaves the
zoom in `[0.1, 5.0]`. -/
theorem claim_C8 :
    (∀ zoom deltaY : ℚ, 0.1 ≤ zoom → zoom ≤ 5.0 →
      mouseWheel false zoom deltaY =
        max 0.1 (min (zoom + -deltaY * 0.001) 5.0) ∧
      0.1 ≤ mouseWheel false zoom deltaY ∧
      mouseWheel false zoom deltaY ≤ 5.0) ∧
    (∀ (events : List (Bool × ℚ)) (z0 : ℚ), 0.1 ≤ z0 → z0 ≤ 5.0 →
      0.1 ≤ events.foldl wheelStep z0 ∧
      events.foldl wheelStep z0 ≤ 5.0) := by
  constructor
  · intro zoom deltaY h1 h2
    refine ⟨?_, ?_, ?_⟩
    · have harg : zoom + deltaY * -0.001 = zoom + -deltaY * 0.001 := by ring
      simp only [mouseWheel, if_neg (Bool.false_ne_true), harg]
    · exact (wheelStep_bounds zoom (false, deltaY) h1 h2).1
    · exact (wheelStep_bounds zoom (false, deltaY) h1 h2).2
  · intro events
    induction events with
    | nil => intro z0 h1 h2; exact ⟨h1, h2⟩
    | cons e es ih =>
        intro z0 h1 h2
        simp only [List.foldl_cons]
        exact ih _ (wheelStep_bounds z0 e h1 h2).1
          (wheelStep_bounds z0 e h1 h2).2

/-- Witness for claim C8: an extreme single delta from zoom 1 clamps to 5,
and a concrete event sequence keeps the zoom in bounds. -/
theorem claim_C8_witness :
    (mouseWheel false 1 (-100000) =
      max 0.1 (min (1 + -(-100000) * 0.001) 5.0) ∧
     0.1 ≤ mouseWheel false 1 (-100000) ∧
     mouseWheel false 1 (-100000) ≤ 5.0) ∧
    (0.1 ≤ [((false : Bool), (-100000 : ℚ)), (true, 3),
        (false, 1000000)].foldl wheelStep 1 ∧
     [((false : Bool), (-100000 : ℚ)), (true, 3),
        (false, 1000000)].foldl wheelStep 1 ≤ 5.0) :=
  ⟨claim_C8.1 1 (-100000) (by norm_num) (by norm_num),
   claim_C8.2 [(false, -100000), (true, 3), (false, 1000000)] 1
     (by norm_num) (by norm_num)⟩

/-- Modelled from the spec: "modifier keys" in the §4.6 input filter.
The comment above the acceptance test in `handleKeyDown` lists them as
Shift, Ctrl, Alt and Meta, so an event "with a modifier key held" is one
with any of those four flags set. -/
def hasModifier (e : KeyboardEvent) : Bool :=
  e.ctrlKey || e.metaKey || e.altKey || e.shiftKey

/-- The shifted single-character keystroke refuting claim C9. -/
def shiftedEvent : KeyboardEvent :=
  { key := "A", ctrlKey := false, metaKey := false, altKey := false,
    shiftKey := true }

/-- Counterexample to claim C9: a single-character key press with the
Shift modifier held still advances the morph machine out of IDLE (the
code tests only `ctrlKey`, `metaKey` and `altKey`, not `shiftKey`,
although its own comment says Shift is excluded). -/
theorem claim_C9_counterexample :
    hasModifier shiftedEvent = true ∧
    handleKeyDown shiftedEvent 100 initialAnim ≠ initialAnim := by
  decide

/-- Claim C9 as amended: the morph machine advances exactly on
single-character key presses with none of Ctrl, Meta, Alt held — Shift is
not examined, so a shifted single-character press also advances it —
and every event failing that test leaves the morph state unchanged. -/
theorem claim_C9 (e : KeyboardEvent) (now : ℚ) (anim : TextAnimState) :
    (acceptedKey e = false → handleKeyDown e now anim = anim) ∧
    (acceptedKey e = true → (handleKeyDown e now anim).nextChar = e.key) := by
  constructor
  · intro h
    simp [handleKeyDown, h]
  · intro h
    obtain ⟨d, n, ph, st, so, ss⟩ := anim
    cases ph <;> simp [handleKeyDown, h]

/-- Witness for claim C9: a Ctrl-chord leaves the state unchanged; the
shifted single-character press is accepted and records the new
character. -/
theorem claim_C9_witness :
    handleKeyDown
        { key := "a", ctrlKey := true, metaKey := false, altKey := false,
          shiftKey := false } 0 initialAnim = initialAnim ∧
    (handleKeyDown shiftedEvent 100 initialAnim).nextChar =
      shiftedEvent.key :=
  ⟨(claim_C9
      { key := "a", ctrlKey := true, metaKey := false, altKey := false,
        shiftKey := false } 0 initialAnim).1 (by decide),
   (claim_C9 shiftedEvent 100 initialAnim).2 (by decide)⟩

/-- Claim C10: `toggleLayer` returns the configuration unchanged except
that layer `k`'s `enabled` flag is negated, and `updateLayerParam` returns
it unchanged except that layer `k`'s parameter `p` holds the new value; in
both cases `order` and every other layer's entry are untouched. -/
theorem claim_C10 (config : ShaderConfig) (k : LayerKey) :
    ((toggleLayer config k).order = config.order ∧
     ((toggleLayer config k).layers k).enabled =
       !((config.layers k).enabled) ∧
     (∀ p : LayerParam,
       paramOf ((toggleLayer config k).layers k) p =
         paramOf (config.layers k) p) ∧
     (∀ k' : LayerKey, k' ≠ k →
       (toggleLayer config k).layers k' = config.layers k')) ∧
    (∀ (p : LayerParam) (v : ℚ),
      (updateLayerParam config k p v).order = config.order ∧
      paramOf ((updateLayerParam config k p v).layers k) p = some v ∧
      (∀ q : LayerParam, q ≠ p →
        paramOf ((updateLayerParam config k p v).layers k) q =
          paramOf (config.layers k) q) ∧
      ((updateLayerParam config k p v).layers k).enabled =
        (config.layers k).enabled ∧
      (∀ k' : LayerKey, k' ≠ k →
        (updateLayerParam config k p v).layers k' = config.layers k')) := by
  constructor
  · refine ⟨rfl, ?_, ?_, ?_⟩
    · simp [toggleLayer, Function.update_same]
    · intro p
      cases p <;> simp [toggleLayer, Function.update_same, paramOf]
    · intro k' hk'
      simp [toggleLayer, Function.update_noteq hk']
  · intro p v
    refine ⟨rfl, ?_, ?_, ?_, ?_⟩
    · cases p <;>
        simp [updateLayerParam, Function.update_same, paramOf, setParam]
    · intro q hq
      cases p <;> cases q <;>
        simp_all [updateLayerParam, Function.update_same, paramOf, setParam]
    · cases p <;>
        simp [updateLayerParam, Function.update_same, setParam]
    · intro k' hk'
      simp [updateLayerParam, Function.update_noteq hk']

/-- Witness for claim C10: toggling holographic in the default
configuration flips only its flag; setting its intensity to 3 changes only
that parameter; glitch's entry is untouched by both. -/
theorem claim_C10_witness :
    ((toggleLayer DEFAULT_CONFIG LayerKey.holographic).layers
        LayerKey.holographic).enabled =
      !((DEFAULT_CONFIG.layers LayerKey.holographic).enabled) ∧
    (toggleLayer DEFAULT_CONFIG LayerKey.holographic).layers
        LayerKey.glitch = DEFAULT_CONFIG.layers LayerKey.glitch ∧
    paramOf ((updateLayerParam DEFAULT_CONFIG LayerKey.holographic
        LayerParam.intensity 3).layers LayerKey.holographic)
        LayerParam.intensity = some 3 ∧
    paramOf ((updateLayerParam DEFAULT_CONFIG LayerKey.holographic
        LayerParam.intensity 3).layers LayerKey.holographic)
        LayerParam.timeScale =
      paramOf (DEFAULT_CONFIG.layers LayerKey.holographic)
        LayerParam.timeScale ∧
    (updateLayerParam DEFAULT_CONFIG LayerKey.holographic
        LayerParam.intensity 3).layers LayerKey.glitch =
      DEFAULT_CONFIG.layers LayerKey.glitch :=
  ⟨(claim_C10 DEFAULT_CONFIG LayerKey.holographic).1.2.1,
   (claim_C10 DEFAULT_CONFIG LayerKey.holographic).1.2.2.2
     LayerKey.glitch (by decide),
   ((claim_C10 DEFAULT_CONFIG LayerKey.holographic).2
     LayerParam.intensity 3).2.1,
   ((claim_C10 DEFAULT_CONFIG LayerKey.holographic).2
     LayerParam.intensity 3).2.2.1 LayerParam.timeScale (by decide),
   ((claim_C10 DEFAULT_CONFIG LayerKey.holographic).2
     LayerParam.intensity 3).2.2.2.2 LayerKey.glitch (by decide)⟩

end ShaderLab
